import Mathlib

/-!
Shallow embedding of the Evidence Review Workbench's resilient case-store and
fault-injection backend (src/lib/mockData.ts, src/lib/mockApi.ts, src/lib/utils.ts).

JavaScript `Math.random()` is modelled by a deterministic stream of naturals,
each interpreted as the fixed-point fraction `k / 2^32` in `[0,1)`; every
consumer of randomness threads the stream state explicitly.  JavaScript numbers
used as timestamps and counts are modelled as `Nat`; extraction confidences
(floats in `[0,1]`) are modelled scaled by 100 (e.g. `0.62` becomes `62`), with
the low-confidence threshold `0.7` becoming `70`.
-/

namespace ERW

/-- Fixed-point denominator modelling the unit interval of `Math.random()`. -/
def UNIT : Nat := 2 ^ 32

/-- Deterministic model of the private random source: an infinite stream of
naturals together with a cursor position. -/
structure Rng where
  stream : Nat → Nat
  pos : Nat

/-- The current raw draw, reduced into `[0, UNIT)` — models one `Math.random()`. -/
def Rng.peek (r : Rng) : Nat := r.stream r.pos % UNIT

/-- Advance the stream after consuming one draw. -/
def Rng.step (r : Rng) : Rng := { r with pos := r.pos + 1 }

/-- `randomInt(min, max)` from mockData.ts:
`Math.floor(Math.random() * (max - min + 1)) + min`. -/
def randomInt (min max : Nat) (r : Rng) : Nat × Rng :=
  (min + r.peek * (max - min + 1) / UNIT, r.step)

/-- `randomItem(array)` from mockData.ts: `array[randomInt(0, array.length - 1)]`. -/
def randomItem [Inhabited α] (array : List α) (r : Rng) : α × Rng :=
  let i := randomInt 0 (array.length - 1) r
  (array.getD i.1 default, i.2)

/-- Ambient clock values: `Date.now()` (ms) and `new Date().getFullYear()`. -/
structure Env where
  now : Nat
  year : Nat
deriving Repr, DecidableEq

/-! ## Entity model (src/lib/types.ts) -/

inductive CaseStatus
  | NEW | IN_REVIEW | NEEDS_INFO | APPROVED | DENIED
deriving Repr, DecidableEq, Inhabited

inductive Specialty
  | Cardiology | Oncology | Musculoskeletal | Neurology | Gastroenterology
deriving Repr, DecidableEq, Inhabited

inductive UserRole
  | viewer | reviewer | admin
deriving Repr, DecidableEq, Inhabited

inductive DecisionType
  | APPROVED | DENIED | NEEDS_INFO
deriving Repr, DecidableEq, Inhabited

inductive AuditActionType
  | FIELD_EDIT | DECISION_SUBMITTED | CASE_OPENED | CASE_CLOSED
deriving Repr, DecidableEq, Inhabited

structure Member where
  id : String
  name : String
  dob : String
deriving Repr, DecidableEq, Inhabited

structure ServiceRequest where
  service : String
  codeType : String
  code : String
deriving Repr, DecidableEq, Inhabited

structure Document where
  docId : String
  type : String
  title : String
  pages : Nat
deriving Repr, DecidableEq, Inhabited

structure EvidenceSource where
  docId : String
  page : Nat
deriving Repr, DecidableEq, Inhabited

/-- `confidence` is the float confidence scaled by 100. -/
structure Extraction where
  fieldId : String
  label : String
  value : String
  confidence : Nat
  source : EvidenceSource
deriving Repr, DecidableEq, Inhabited

structure AIRecommendation where
  decision : DecisionType
  rationale : List String
  evidenceFieldIds : List String
deriving Repr, DecidableEq, Inhabited

/-- One record type with optional fields, mirroring the TypeScript interface. -/
structure AuditEvent where
  action : AuditActionType
  timestamp : String
  user : String
  fieldId : Option String := none
  oldValue : Option String := none
  newValue : Option String := none
  reason : Option String := none
  decision : Option DecisionType := none
  isOverride : Option Bool := none
deriving Repr, DecidableEq, Inhabited

structure Case where
  caseId : String
  status : CaseStatus
  specialty : Specialty
  member : Member
  request : ServiceRequest
  receivedTime : Nat
  slaDeadline : Nat
  documents : List Document
  extractions : List Extraction
  aiRecommendation : AIRecommendation
  auditTrail : List AuditEvent
deriving Repr, DecidableEq, Inhabited

structure CaseListItem where
  caseId : String
  status : CaseStatus
  specialty : Specialty
  member : Member
  receivedTime : Nat
  slaDeadline : Nat
  request : ServiceRequest
deriving Repr, DecidableEq, Inhabited

structure FieldEditRequest where
  oldValue : String
  newValue : String
  reason : String
  timestamp : String
  user : String
deriving Repr, DecidableEq, Inhabited

structure DecisionSubmissionRequest where
  finalDecision : DecisionType
  isOverride : Bool
  overrideReason : Option String
  evidenceUsed : List String
  timestamp : String
  user : String
deriving Repr, DecidableEq, Inhabited

structure ApiResponse (α : Type) where
  success : Bool
  data : Option α := none
  error : Option String := none
deriving Repr, DecidableEq, Inhabited

/-! ## Mock data generation (src/lib/mockData.ts) -/

def STATUSES : List CaseStatus :=
  [.NEW, .IN_REVIEW, .NEEDS_INFO, .APPROVED, .DENIED]

def SPECIALTIES : List Specialty :=
  [.Cardiology, .Oncology, .Musculoskeletal, .Neurology, .Gastroenterology]

def SERVICES : List String :=
  ["Wearable cardioverter-defibrillator",
   "MRI - Brain with contrast",
   "Physical therapy - 12 sessions",
   "Chemotherapy - FOLFOX regimen",
   "Spinal fusion surgery",
   "Cardiac catheterization",
   "Sleep study - Polysomnography",
   "Joint replacement - Hip",
   "Radiation therapy - 30 treatments",
   "Genetic testing - BRCA1/2"]

def FIRST_NAMES : List String :=
  ["James", "Mary", "John", "Patricia", "Robert", "Jennifer",
   "Michael", "Linda", "William", "Elizabeth", "David", "Barbara"]

def LAST_NAMES : List String :=
  ["Smith", "Johnson", "Williams", "Brown", "Jones", "Garcia",
   "Miller", "Davis", "Rodriguez", "Martinez", "Hernandez", "Lopez"]

/-- `String(n).padStart(2, "0")` for the month/day components. -/
def pad2 (n : Nat) : String :=
  if n < 10 then "0" ++ toString n else toString n

/-- `generateDOB()`: random date of birth, age 18-90. -/
def generateDOB (env : Env) (r : Rng) : String × Rng :=
  let age := randomInt 18 90 r
  let month := randomInt 1 12 age.2
  let day := randomInt 1 28 month.2
  (toString (env.year - age.1) ++ "-" ++ pad2 month.1 ++ "-" ++ pad2 day.1, day.2)

/-- One iteration of the `generateCaseList` loop body, at index `i`. -/
def generateCaseListItem (env : Env) (i : Nat) (r : Rng) : CaseListItem × Rng :=
  let received := randomInt 0 (7 * 24 * 60 * 60 * 1000) r
  let receivedTime := env.now - received.1
  let slaDeadline := receivedTime + 48 * 60 * 60 * 1000
  let status := randomItem STATUSES received.2
  let specialty := randomItem SPECIALTIES status.2
  let firstName := randomItem FIRST_NAMES specialty.2
  let lastName := randomItem LAST_NAMES firstName.2
  let dob := generateDOB env lastName.2
  let service := randomItem SERVICES dob.2
  let code := randomInt 0 9999 service.2
  ({ caseId := "PA-" ++ toString (10000 + i),
     status := status.1,
     specialty := specialty.1,
     member := { id := "M-" ++ toString (80000 + i),
                 name := firstName.1 ++ " " ++ lastName.1,
                 dob := dob.1 },
     receivedTime := receivedTime,
     slaDeadline := slaDeadline,
     request := { service := service.1,
                  codeType := "HCPCS",
                  code := "K" ++ toString (1000 + code.1) } },
   code.2)

/-- The `generateCaseList` loop starting at index `i` with `n` iterations left. -/
def generateCaseListFrom (env : Env) (i : Nat) : Nat → Rng → List CaseListItem × Rng
  | 0, r => ([], r)
  | n + 1, r =>
    let item := generateCaseListItem env i r
    let rest := generateCaseListFrom env (i + 1) n item.2
    (item.1 :: rest.1, rest.2)

/-- `generateCaseList(count)` from mockData.ts. -/
def generateCaseList (env : Env) (count : Nat) (r : Rng) : List CaseListItem × Rng :=
  generateCaseListFrom env 0 count r

/-- `generateExtractions(specialty)`; `none` models the `undefined` specialty that
JavaScript indexing can produce, which falls through to the default branch. -/
def generateExtractions : Option Specialty → List Extraction
  | some .Cardiology =>
    [{ fieldId := "dx", label := "Diagnosis",
       value := "Non-ischemic cardiomyopathy", confidence := 62,
       source := { docId := "DOC-1", page := 2 } },
     { fieldId := "ef", label := "Ejection Fraction",
       value := "25%", confidence := 91,
       source := { docId := "DOC-1", page := 3 } },
     { fieldId := "symptoms", label := "Symptoms",
       value := "Shortness of breath, fatigue, palpitations", confidence := 78,
       source := { docId := "DOC-1", page := 2 } },
     { fieldId := "medication", label := "Current Medications",
       value := "Lisinopril 10mg daily, Metoprolol 25mg BID, Furosemide 20mg daily",
       confidence := 45,
       source := { docId := "DOC-1", page := 4 } },
     { fieldId := "prior_treatment", label := "Prior Treatment",
       value := "Medical therapy for 6 months", confidence := 68,
       source := { docId := "DOC-1", page := 5 } }]
  | some .Oncology =>
    [{ fieldId := "dx", label := "Diagnosis",
       value := "Stage IIIB colorectal adenocarcinoma", confidence := 88,
       source := { docId := "DOC-1", page := 1 } },
     { fieldId := "staging", label := "Cancer Staging",
       value := "T3N1M0", confidence := 92,
       source := { docId := "DOC-1", page := 2 } },
     { fieldId := "biomarkers", label := "Biomarkers",
       value := "KRAS wild-type, MSI-stable", confidence := 55,
       source := { docId := "DOC-2", page := 1 } },
     { fieldId := "prior_treatment", label := "Prior Treatment",
       value := "Surgical resection completed 4 weeks ago", confidence := 81,
       source := { docId := "DOC-1", page := 3 } }]
  | some .Musculoskeletal =>
    [{ fieldId := "dx", label := "Diagnosis",
       value := "Severe osteoarthritis, right hip", confidence := 85,
       source := { docId := "DOC-1", page := 1 } },
     { fieldId := "pain_level", label := "Pain Level",
       value := "8/10, limiting daily activities", confidence := 73,
       source := { docId := "DOC-1", page := 2 } },
     { fieldId := "imaging", label := "Imaging Results",
       value := "X-ray shows severe joint space narrowing, bone-on-bone contact",
       confidence := 89,
       source := { docId := "DOC-2", page := 1 } },
     { fieldId := "prior_treatment", label := "Conservative Treatment",
       value := "PT 8 weeks, NSAIDs, cortisone injection - all failed",
       confidence := 48,
       source := { docId := "DOC-1", page := 3 } }]
  | _ =>
    [{ fieldId := "dx", label := "Diagnosis",
       value := "Clinical diagnosis documented", confidence := 75,
       source := { docId := "DOC-1", page := 1 } },
     { fieldId := "clinical_notes", label := "Clinical Notes",
       value := "Patient evaluation completed", confidence := 82,
       source := { docId := "DOC-1", page := 2 } }]

/-- `generateAIRecommendation(extractions)`; consumes one random draw only on
the high-confidence path (`Math.random() > 0.3`). -/
def generateAIRecommendation (extractions : List Extraction) (r : Rng) :
    AIRecommendation × Rng :=
  let lowConfidenceFields := extractions.filter (fun e => e.confidence < 70)
  if lowConfidenceFields.length > 0 then
    ({ decision := .NEEDS_INFO,
       rationale :=
         [toString lowConfidenceFields.length ++
            " field(s) extracted with low confidence",
          "Additional documentation recommended for verification",
          "Manual review of source documents advised"],
       evidenceFieldIds := (extractions.take 2).map (fun e => e.fieldId) }, r)
  else
    let shouldApprove := r.peek * 10 > 3 * UNIT
    if shouldApprove then
      ({ decision := .APPROVED,
         rationale :=
           ["All clinical criteria met based on extracted evidence",
            "Documentation supports medical necessity",
            "Treatment aligns with clinical guidelines"],
         evidenceFieldIds := (extractions.take 3).map (fun e => e.fieldId) },
       r.step)
    else
      ({ decision := .DENIED,
         rationale :=
           ["Insufficient documentation of medical necessity",
            "Alternative treatment options not adequately explored",
            "Does not meet coverage criteria"],
         evidenceFieldIds := (extractions.take 2).map (fun e => e.fieldId) },
       r.step)

/-- `parseInt(caseId.split("-")[1]) - 10000`; `none` models `NaN` (no leading
digits in the split segment). -/
def caseIndex (caseId : String) : Option Int :=
  let seg := ((caseId.splitOn "-").getD 1 "")
  let digits := seg.takeWhile Char.isDigit
  match digits.toNat? with
  | some n => some ((n : Int) - 10000)
  | none => none

/-- `SPECIALTIES[index % SPECIALTIES.length]`; JavaScript `%` truncates toward
zero, so a negative or `NaN` index reads `undefined` (modelled as `none`). -/
def specialtyAt (idx : Option Int) : Option Specialty :=
  match idx with
  | some i => if 0 ≤ i then SPECIALTIES.get? (i.toNat % SPECIALTIES.length) else none
  | none => none

/-- `` `M-${80000 + index}` `` with `NaN` propagation. -/
def memberIdAt (idx : Option Int) : String :=
  match idx with
  | some i => "M-" ++ toString (80000 + i)
  | none => "M-NaN"

/-- `generateCaseDetails(caseId)` from mockData.ts. -/
def generateCaseDetails (caseId : String) (env : Env) (r : Rng) : Case × Rng :=
  let index := caseIndex caseId
  let specialty := specialtyAt index
  let received := randomInt 0 (7 * 24 * 60 * 60 * 1000) r
  let receivedTime := env.now - received.1
  let slaDeadline := receivedTime + 48 * 60 * 60 * 1000
  let extractions := generateExtractions specialty
  let aiRecommendation := generateAIRecommendation extractions received.2
  let firstName := randomItem FIRST_NAMES aiRecommendation.2
  let lastName := randomItem LAST_NAMES firstName.2
  let dob := generateDOB env lastName.2
  let service := randomItem SERVICES dob.2
  let code := randomInt 0 9999 service.2
  ({ caseId := caseId,
     status := .IN_REVIEW,
     specialty := specialty.getD .Gastroenterology,
     member := { id := memberIdAt index,
                 name := firstName.1 ++ " " ++ lastName.1,
                 dob := dob.1 },
     request := { service := service.1,
                  codeType := "HCPCS",
                  code := "K" ++ toString (1000 + code.1) },
     receivedTime := receivedTime,
     slaDeadline := slaDeadline,
     documents :=
       [{ docId := "DOC-1", type := "PDF", title := "Clinical Notes", pages := 7 },
        { docId := "DOC-2", type := "PDF", title := "Lab Results", pages := 3 },
        { docId := "DOC-3", type := "PDF", title := "Imaging Reports", pages := 2 }],
     extractions := extractions,
     aiRecommendation := aiRecommendation.1,
     auditTrail := [] },
   code.2)

/-- `generateCardiologyCase()` from mockData.ts: the fixed example case. -/
def generateCardiologyCase (env : Env) : Case :=
  { caseId := "PA-10293",
    status := .IN_REVIEW,
    specialty := .Cardiology,
    member := { id := "M-88321", name := "Test Patient", dob := "1978-02-11" },
    request := { service := "Wearable cardioverter-defibrillator",
                 codeType := "HCPCS", code := "K0606" },
    receivedTime := env.now - 24 * 60 * 60 * 1000,
    slaDeadline := env.now + 24 * 60 * 60 * 1000,
    documents :=
      [{ docId := "DOC-1", type := "PDF", title := "Clinical Notes", pages := 7 }],
    extractions :=
      [{ fieldId := "dx", label := "Diagnosis",
         value := "Non-ischemic cardiomyopathy", confidence := 62,
         source := { docId := "DOC-1", page := 2 } },
       { fieldId := "ef", label := "Ejection Fraction",
         value := "25%", confidence := 91,
         source := { docId := "DOC-1", page := 3 } }],
    aiRecommendation :=
      { decision := .NEEDS_INFO,
        rationale :=
          ["EF present but timing unclear",
           "Missing documented guideline-directed medical therapy duration"],
        evidenceFieldIds := ["ef", "dx"] },
    auditTrail := [] }

/-! ## Mock API service (src/lib/mockApi.ts) -/

/-- `ApiError(message, statusCode)`: errors carry only a message and an
HTTP-like status code (offline uses `0`, injected failure `500`,
validation `400`). -/
structure ApiError where
  message : String
  statusCode : Nat
deriving Repr, DecidableEq, Inhabited

def MIN_LATENCY : Nat := 200
def MAX_LATENCY : Nat := 2000
def RETRY_ATTEMPTS : Nat := 3
def RETRY_DELAY_BASE : Nat := 1000

/-- `simulateLatency()`: consumes one draw and yields the delay in ms,
`Math.random() * (MAX_LATENCY - MIN_LATENCY) + MIN_LATENCY`. -/
def simulateLatency (r : Rng) : Nat × Rng :=
  (r.peek * (MAX_LATENCY - MIN_LATENCY) / UNIT + MIN_LATENCY, r.step)

/-- `shouldFail()`: `Math.random() < FAILURE_RATE` with `FAILURE_RATE = 0.05`. -/
def shouldFail (r : Rng) : Bool × Rng :=
  (r.peek * 100 < 5 * UNIT, r.step)

/-- The `withRetry` loop; the wrapped operation is modelled as a function of
the attempt number (each attempt may behave differently), `remaining` counts
the loop iterations still allowed (`retries - attempt`, so the loop guard
`attempt < retries` is `remaining > 0`), and the returned list records the
backoff delays waited, in order. -/
def retryGo (fn : Nat → Except ApiError α) (retries : Nat) :
    Nat → Nat → List Nat → Except ApiError α × List Nat
  | 0, _, waits =>
    (.error { message := "Max retries exceeded", statusCode := 500 }, waits)
  | remaining + 1, attempt, waits =>
    match fn attempt with
    | .ok v => (.ok v, waits)
    | .error e =>
      if attempt = retries - 1 then
        (.error e, waits)
      else
        retryGo fn retries remaining (attempt + 1)
          (waits ++ [RETRY_DELAY_BASE * 2 ^ attempt])

/-- `withRetry(fn, retries)` from mockApi.ts. -/
def withRetry (fn : Nat → Except ApiError α)
    (retries : Nat := RETRY_ATTEMPTS) : Except ApiError α × List Nat :=
  retryGo fn retries retries 0 []

/-! ### In-memory case storage (`class CaseStore`) -/

/-- `Map.get`: the binding for the key (a `Map` holds at most one). -/
def mapGet (m : List (String × Case)) (k : String) : Option Case :=
  match m with
  | [] => none
  | p :: rest => if p.1 = k then some p.2 else mapGet rest k

/-- `Map.set`: replace the existing binding in place, else append at the end
(JavaScript `Map` keeps a key's original insertion position on overwrite). -/
def mapSet (m : List (String × Case)) (k : String) (v : Case) :
    List (String × Case) :=
  match m with
  | [] => [(k, v)]
  | p :: rest => if p.1 = k then (k, v) :: rest else p :: mapSet rest k v

/-- The private fields of `class CaseStore`. -/
structure StoreState where
  cases : List (String × Case)
  caseList : List CaseListItem
  initDone : Bool
deriving Repr, DecidableEq, Inhabited

/-- The fresh store: `cases = new Map()`, `caseList = []`, flag false. -/
def emptyStore : StoreState :=
  { cases := [], caseList := [], initDone := false }

namespace CaseStore

/-- `CaseStore.initialize()`: guarded by the `initialized` flag; populates the
750-item list projection and seeds the example cardiology case. -/
def init (env : Env) (r : Rng) (s : StoreState) : StoreState × Rng :=
  if s.initDone then
    (s, r)
  else
    let list := generateCaseList env 750 r
    let cardiologyCase := generateCardiologyCase env
    ({ cases := mapSet s.cases cardiologyCase.caseId cardiologyCase,
       caseList := list.1,
       initDone := true },
     list.2)

/-- `CaseStore.getCaseList()`. -/
def getCaseList (env : Env) (r : Rng) (s : StoreState) :
    List CaseListItem × StoreState × Rng :=
  let s1 := init env r s
  (s1.1.caseList, s1.1, s1.2)

/-- `CaseStore.getCase(caseId)`: returns the cached case if present, else
generates it on demand and caches it. -/
def getCase (env : Env) (caseId : String) (r : Rng) (s : StoreState) :
    Case × StoreState × Rng :=
  let s1 := init env r s
  match mapGet s1.1.cases caseId with
  | some c => (c, s1.1, s1.2)
  | none =>
    let gen := generateCaseDetails caseId env s1.2
    (gen.1, { s1.1 with cases := mapSet s1.1.cases caseId gen.1 }, gen.2)

/-- `Partial<Case>` as used by the two mutation call sites. -/
structure CaseUpdates where
  status : Option CaseStatus := none
  extractions : Option (List Extraction) := none
  auditTrail : Option (List AuditEvent) := none
deriving Repr, DecidableEq, Inhabited

/-- `findIndex` + in-place status assignment on the list projection. -/
def setStatusFirst (cid : String) (st : CaseStatus) :
    List CaseListItem → List CaseListItem
  | [] => []
  | item :: rest =>
    if item.caseId = cid then
      { item with status := st } :: rest
    else
      item :: setStatusFirst cid st rest

/-- `CaseStore.updateCase(caseId, updates)`: spread-merge the updates over the
existing case, store it, and push a status change into the list projection. -/
def updateCase (env : Env) (caseId : String) (u : CaseUpdates) (r : Rng)
    (s : StoreState) : Case × StoreState × Rng :=
  let got := getCase env caseId r s
  let existingCase := got.1
  let s1 := got.2.1
  let updatedCase : Case :=
    { existingCase with
      status := u.status.getD existingCase.status,
      extractions := u.extractions.getD existingCase.extractions,
      auditTrail := u.auditTrail.getD existingCase.auditTrail }
  let newList :=
    match u.status with
    | some st => setStatusFirst caseId st s1.caseList
    | none => s1.caseList
  (updatedCase,
   { s1 with cases := mapSet s1.cases caseId updatedCase, caseList := newList },
   got.2.2)

end CaseStore

namespace mockApi

/-- `mockApi.getCases(offlineMode)`. -/
def getCases (env : Env) (offlineMode : Bool) (r : Rng) (s : StoreState) :
    Except ApiError (List CaseListItem) × StoreState × Rng :=
  if offlineMode then
    (.error { message := "Network request failed: Offline mode enabled",
              statusCode := 0 }, s, r)
  else
    let lat := simulateLatency r
    let fail := shouldFail lat.2
    if fail.1 then
      (.error { message := "Failed to fetch cases: Server error",
                statusCode := 500 }, s, fail.2)
    else
      let got := CaseStore.getCaseList env fail.2 s
      (.ok got.1, got.2.1, got.2.2)

/-- `mockApi.getCaseDetails(caseId, offlineMode)`. -/
def getCaseDetails (env : Env) (caseId : String) (offlineMode : Bool) (r : Rng)
    (s : StoreState) : Except ApiError Case × StoreState × Rng :=
  if offlineMode then
    (.error { message := "Network request failed: Offline mode enabled",
              statusCode := 0 }, s, r)
  else
    let lat := simulateLatency r
    let fail := shouldFail lat.2
    if fail.1 then
      (.error { message := "Failed to fetch case " ++ caseId ++ ": Server error",
                statusCode := 500 }, s, fail.2)
    else
      let got := CaseStore.getCase env caseId fail.2 s
      (.ok got.1, got.2.1, got.2.2)

/-- `mockApi.updateExtraction(caseId, fieldId, editData, offlineMode)`. -/
def updateExtraction (env : Env) (caseId fieldId : String)
    (editData : FieldEditRequest) (offlineMode : Bool) (r : Rng)
    (s : StoreState) : Except ApiError (ApiResponse Case) × StoreState × Rng :=
  if offlineMode then
    (.error { message := "Network request failed: Offline mode enabled",
              statusCode := 0 }, s, r)
  else
    let lat := simulateLatency r
    let fail := shouldFail lat.2
    if fail.1 then
      (.error { message := "Failed to update extraction: Server error",
                statusCode := 500 }, s, fail.2)
    else if editData.newValue = "" ∨ editData.reason = "" then
      (.error { message := "Invalid request: newValue and reason are required",
                statusCode := 400 }, s, fail.2)
    else
      let got := CaseStore.getCase env caseId fail.2 s
      let currentCase := got.1
      let updatedExtractions := currentCase.extractions.map fun extraction =>
        if extraction.fieldId = fieldId then
          { extraction with value := editData.newValue }
        else
          extraction
      let auditEvent : AuditEvent :=
        { action := .FIELD_EDIT,
          timestamp := editData.timestamp,
          user := editData.user,
          fieldId := some fieldId,
          oldValue := some editData.oldValue,
          newValue := some editData.newValue,
          reason := some editData.reason }
      let upd := CaseStore.updateCase env caseId
        { extractions := some updatedExtractions,
          auditTrail := some (currentCase.auditTrail ++ [auditEvent]) }
        got.2.2 got.2.1
      (.ok { success := true, data := some upd.1 }, upd.2.1, upd.2.2)

/-- `decision.overrideReason || undefined` in the audit event. -/
def reasonOrNone (o : Option String) : Option String :=
  match o with
  | some x => if x = "" then none else some x
  | none => none

/-- The `newStatus` if/else chain in `submitDecision`: `let newStatus =
currentCase.status` followed by one reassignment per decision value; the
fallback to the current status is unreachable because every `DecisionType`
value is covered. -/
def decisionStatus : DecisionType → CaseStatus
  | .APPROVED => .APPROVED
  | .DENIED => .DENIED
  | .NEEDS_INFO => .NEEDS_INFO

/-- `mockApi.submitDecision(caseId, decision, offlineMode)`. -/
def submitDecision (env : Env) (caseId : String)
    (decision : DecisionSubmissionRequest) (offlineMode : Bool) (r : Rng)
    (s : StoreState) : Except ApiError (ApiResponse Case) × StoreState × Rng :=
  if offlineMode then
    (.error { message := "Network request failed: Offline mode enabled",
              statusCode := 0 }, s, r)
  else
    let lat := simulateLatency r
    let fail := shouldFail lat.2
    if fail.1 then
      (.error { message := "Failed to submit decision: Server error",
                statusCode := 500 }, s, fail.2)
    else if decision.evidenceUsed = [] then
      (.error { message :=
                  "Invalid request: finalDecision and evidenceUsed are required",
                statusCode := 400 }, s, fail.2)
    else if decision.isOverride ∧ reasonOrNone decision.overrideReason = none then
      (.error { message :=
                  "Override reason is required when overriding AI recommendation",
                statusCode := 400 }, s, fail.2)
    else
      let got := CaseStore.getCase env caseId fail.2 s
      let currentCase := got.1
      let newStatus : CaseStatus := decisionStatus decision.finalDecision
      let auditEvent : AuditEvent :=
        { action := .DECISION_SUBMITTED,
          timestamp := decision.timestamp,
          user := decision.user,
          decision := some decision.finalDecision,
          isOverride := some decision.isOverride,
          reason := reasonOrNone decision.overrideReason }
      let upd := CaseStore.updateCase env caseId
        { status := some newStatus,
          auditTrail := some (currentCase.auditTrail ++ [auditEvent]) }
        got.2.2 got.2.1
      (.ok { success := true, data := some upd.1 }, upd.2.1, upd.2.2)

end mockApi

/-! ## Permissions (src/lib/utils.ts `hasPermission`) -/

inductive PermAction
  | view | edit | submit | audit
deriving Repr, DecidableEq, Inhabited

/-- The per-role capability lists from `hasPermission`. -/
def rolePermissions : UserRole → List PermAction
  | .viewer => [.view]
  | .reviewer => [.view, .edit, .submit]
  | .admin => [.view, .edit, .submit, .audit]

/-- `hasPermission(userRole, action)` from utils.ts. -/
def hasPermission (userRole : UserRole) (action : PermAction) : Bool :=
  (rolePermissions userRole).contains action

/-! ## Sequences of facade mutations -/

/-- One mutation call through the facade, with its own arguments. -/
inductive MutOp
  | editField (caseId fieldId : String) (editData : FieldEditRequest)
      (offlineMode : Bool)
  | submitOp (caseId : String) (decision : DecisionSubmissionRequest)
      (offlineMode : Bool)
deriving Repr, Inhabited

/-- The case a mutation call targets. -/
def MutOp.target : MutOp → String
  | .editField caseId _ _ _ => caseId
  | .submitOp caseId _ _ => caseId

/-- Dispatch one mutation call to the facade. -/
def applyOp (env : Env) (op : MutOp) (r : Rng) (s : StoreState) :
    Except ApiError (ApiResponse Case) × StoreState × Rng :=
  match op with
  | .editField caseId fieldId editData offlineMode =>
    mockApi.updateExtraction env caseId fieldId editData offlineMode r s
  | .submitOp caseId decision offlineMode =>
    mockApi.submitDecision env caseId decision offlineMode r s

/-- Whether an API outcome is a success. -/
def isOkB : Except ApiError (ApiResponse Case) → Bool
  | .ok _ => true
  | .error _ => false

/-- Run a sequence of mutation calls, threading store and randomness; the
boolean records whether every call in the sequence succeeded. -/
def runOps (env : Env) : List MutOp → Rng → StoreState →
    StoreState × Rng × Bool
  | [], r, s => (s, r, true)
  | op :: ops, r, s =>
    let out := applyOp env op r s
    let rest := runOps env ops out.2.2 out.2.1
    (rest.1, rest.2.1, isOkB out.1 && rest.2.2)

/-! ## Derived shapes of the successful mutation paths -/

/-- The FIELD_EDIT audit event `updateExtraction` constructs. -/
def fieldEditEvent (fieldId : String) (ed : FieldEditRequest) : AuditEvent :=
  { action := .FIELD_EDIT,
    timestamp := ed.timestamp,
    user := ed.user,
    fieldId := some fieldId,
    oldValue := some ed.oldValue,
    newValue := some ed.newValue,
    reason := some ed.reason }

/-- The case stored by a successful `updateExtraction`: the matching field's
value is overwritten and one FIELD_EDIT event is appended. -/
def editedCase (c : Case) (fieldId : String) (ed : FieldEditRequest) : Case :=
  { c with
    extractions := c.extractions.map fun extraction =>
      if extraction.fieldId = fieldId then
        { extraction with value := ed.newValue }
      else
        extraction,
    auditTrail := c.auditTrail ++ [fieldEditEvent fieldId ed] }

/-- The DECISION_SUBMITTED audit event `submitDecision` constructs. -/
def decisionEvent (d : DecisionSubmissionRequest) : AuditEvent :=
  { action := .DECISION_SUBMITTED,
    timestamp := d.timestamp,
    user := d.user,
    decision := some d.finalDecision,
    isOverride := some d.isOverride,
    reason := mockApi.reasonOrNone d.overrideReason }

/-- The case stored by a successful `submitDecision`: the status is set from
the decision and one DECISION_SUBMITTED event is appended. -/
def decidedCase (c : Case) (d : DecisionSubmissionRequest) : Case :=
  { c with
    status := mockApi.decisionStatus d.finalDecision,
    auditTrail := c.auditTrail ++ [decisionEvent d] }

/-! ## Concrete fixtures used by witnesses and counterexamples -/

/-- A concrete clock: an arbitrary instant in 2023/2024. -/
def env0 : Env := { now := 1700000000000, year := 2024 }

/-- A random stream whose every draw is `1 - 2^-32` — in particular
`shouldFail` answers `false` on it, so injected failure never fires. -/
def rngHi : Rng := { stream := fun _ => UNIT - 1, pos := 0 }

/-- A random stream whose every draw is `0` — `shouldFail` answers `true`. -/
def rngLo : Rng := { stream := fun _ => 0, pos := 0 }

/-- The store exactly as `initialize()` leaves it on first call. -/
def initState : StoreState := (CaseStore.init env0 rngHi emptyStore).1

/-- The random source position after that first initialization. -/
def rng1 : Rng := (CaseStore.init env0 rngHi emptyStore).2

/-- The seeded example cardiology case under the concrete clock. -/
def card0 : Case := generateCardiologyCase env0

/-- A well-formed edit whose `oldValue` matches the stored `"25%"`. -/
def editOk : FieldEditRequest :=
  { oldValue := "25%", newValue := "20%", reason := "repeat echo",
    timestamp := "2024-01-01T00:00:00Z", user := "reviewer" }

/-- A well-formed edit whose `oldValue` is stale (differs from `"25%"`). -/
def editStale : FieldEditRequest :=
  { oldValue := "30%", newValue := "20%", reason := "repeat echo",
    timestamp := "2024-01-01T00:00:00Z", user := "reviewer" }

/-- A well-formed edit issued by a caller with the `viewer` role. -/
def editViewer : FieldEditRequest :=
  { oldValue := "25%", newValue := "20%", reason := "repeat echo",
    timestamp := "2024-01-01T00:00:00Z", user := "viewer" }

/-- A well-formed decision submission (no override). -/
def decOk : DecisionSubmissionRequest :=
  { finalDecision := .APPROVED, isOverride := false, overrideReason := none,
    evidenceUsed := ["ef"], timestamp := "2024-01-01T00:01:00Z",
    user := "reviewer" }

/-- A well-formed decision submission issued by the `viewer` role. -/
def decViewer : DecisionSubmissionRequest :=
  { finalDecision := .APPROVED, isOverride := false, overrideReason := none,
    evidenceUsed := ["ef"], timestamp := "2024-01-01T00:01:00Z",
    user := "viewer" }

/-! ## Helper lemmas -/

theorem mapGet_mapSet_self (m : List (String × Case)) (k : String) (v : Case) :
    mapGet (mapSet m k v) k = some v := by
  induction m with
  | nil => simp [mapSet, mapGet]
  | cons p rest ih =>
    by_cases hp : p.1 = k
    · simp [mapSet, mapGet, hp]
    · simp [mapSet, mapGet, hp, ih]

theorem mapGet_mapSet_ne (m : List (String × Case)) (k k' : String) (v : Case)
    (h : k' ≠ k) : mapGet (mapSet m k v) k' = mapGet m k' := by
  induction m with
  | nil => simp [mapSet, mapGet, Ne.symm h]
  | cons p rest ih =>
    by_cases hp : p.1 = k
    · simp [mapSet, mapGet, hp, Ne.symm h]
    · by_cases hq : p.1 = k' <;> simp [mapSet, mapGet, hp, hq, ih, h]

theorem setStatusFirst_length (cid : String) (st : CaseStatus)
    (l : List CaseListItem) :
    (CaseStore.setStatusFirst cid st l).length = l.length := by
  induction l with
  | nil => simp [CaseStore.setStatusFirst]
  | cons x xs ih =>
    by_cases hx : x.caseId = cid <;> simp [CaseStore.setStatusFirst, hx, ih]

theorem generateCaseListFrom_length (env : Env) :
    ∀ (n i : Nat) (r : Rng), (generateCaseListFrom env i n r).1.length = n := by
  intro n
  induction n with
  | zero => intro i r; simp [generateCaseListFrom]
  | succ n ih => intro i r; simp [generateCaseListFrom, ih]

theorem init_of_initDone (env : Env) (r : Rng) (s : StoreState)
    (h : s.initDone = true) : CaseStore.init env r s = (s, r) := by
  simp [CaseStore.init, h]

theorem init_initDone (env : Env) (r : Rng) (s : StoreState) :
    (CaseStore.init env r s).1.initDone = true := by
  by_cases h : s.initDone <;> simp [CaseStore.init, h]

theorem init_fresh_length (env : Env) (r : Rng) (s : StoreState)
    (h : s.initDone = false) :
    (CaseStore.init env r s).1.caseList.length = 750 := by
  simp [CaseStore.init, h, generateCaseList, generateCaseListFrom_length]

theorem getCase_cached (env : Env) (cid : String) (r : Rng) (s : StoreState)
    (c : Case) (hInit : s.initDone = true) (hGet : mapGet s.cases cid = some c) :
    CaseStore.getCase env cid r s = (c, s, r) := by
  simp [CaseStore.getCase, init_of_initDone env r s hInit, hGet]

theorem getCase_absent (env : Env) (cid : String) (r : Rng) (s : StoreState)
    (hInit : s.initDone = true) (hGet : mapGet s.cases cid = none) :
    CaseStore.getCase env cid r s =
      ((generateCaseDetails cid env r).1,
       { s with cases := mapSet s.cases cid (generateCaseDetails cid env r).1 },
       (generateCaseDetails cid env r).2) := by
  simp [CaseStore.getCase, init_of_initDone env r s hInit, hGet]

theorem getCase_spec (env : Env) (cid : String) (r : Rng) (s : StoreState)
    (hInit : s.initDone = true) :
    (CaseStore.getCase env cid r s).2.1.initDone = true ∧
    (CaseStore.getCase env cid r s).2.1.caseList = s.caseList ∧
    mapGet (CaseStore.getCase env cid r s).2.1.cases cid =
      some (CaseStore.getCase env cid r s).1 ∧
    (∀ cid', cid' ≠ cid →
      mapGet (CaseStore.getCase env cid r s).2.1.cases cid' =
        mapGet s.cases cid') ∧
    (∀ c, mapGet s.cases cid = some c → (CaseStore.getCase env cid r s).1 = c) := by
  cases hGet : mapGet s.cases cid with
  | some c =>
    rw [getCase_cached env cid r s c hInit hGet]
    exact ⟨hInit, rfl, hGet, fun _ _ => rfl,
      fun c' hc' => Option.some_inj.mp hc'⟩
  | none =>
    rw [getCase_absent env cid r s hInit hGet]
    exact ⟨hInit, rfl, mapGet_mapSet_self _ _ _,
      fun cid' h => mapGet_mapSet_ne _ _ _ _ h,
      fun c' hc' => absurd hc' (by simp)⟩

/-- The spread-merge `{ ...existingCase, ...updates }` in `updateCase`. -/
def mergedCase (c : Case) (u : CaseStore.CaseUpdates) : Case :=
  { c with
    status := u.status.getD c.status,
    extractions := u.extractions.getD c.extractions,
    auditTrail := u.auditTrail.getD c.auditTrail }

theorem updateCase_of_get (env : Env) (cid : String) (u : CaseStore.CaseUpdates)
    (r : Rng) (s : StoreState) (c : Case) (hInit : s.initDone = true)
    (hGet : mapGet s.cases cid = some c) :
    CaseStore.updateCase env cid u r s =
      (mergedCase c u,
       { s with
         cases := mapSet s.cases cid (mergedCase c u),
         caseList :=
           match u.status with
           | some st => CaseStore.setStatusFirst cid st s.caseList
           | none => s.caseList },
       r) := by
  simp [CaseStore.updateCase, getCase_cached env cid r s c hInit hGet, mergedCase]

theorem updateExtraction_ok (env : Env) (cid fid : String)
    (ed : FieldEditRequest) (r : Rng) (s : StoreState)
    (hInit : s.initDone = true) (hNv : ed.newValue ≠ "") (hRs : ed.reason ≠ "")
    (hFail : (shouldFail (simulateLatency r).2).1 = false) :
    mockApi.updateExtraction env cid fid ed false r s =
      (let got := CaseStore.getCase env cid (shouldFail (simulateLatency r).2).2 s
       (.ok { success := true, data := some (editedCase got.1 fid ed) },
        { got.2.1 with
          cases := mapSet got.2.1.cases cid (editedCase got.1 fid ed) },
        got.2.2)) := by
  have hspec := getCase_spec env cid (shouldFail (simulateLatency r).2).2 s hInit
  rw [mockApi.updateExtraction]
  simp only [Bool.false_eq_true, if_neg, ite_false, hFail]
  rw [if_neg (by simp [hNv, hRs])]
  rw [updateCase_of_get env cid _ _ _ _ hspec.1 hspec.2.2.1]
  simp [editedCase, mergedCase, fieldEditEvent]

theorem submitDecision_ok (env : Env) (cid : String)
    (d : DecisionSubmissionRequest) (r : Rng) (s : StoreState)
    (hInit : s.initDone = true) (hEv : d.evidenceUsed ≠ [])
    (hOv : ¬(d.isOverride = true ∧ mockApi.reasonOrNone d.overrideReason = none))
    (hFail : (shouldFail (simulateLatency r).2).1 = false) :
    mockApi.submitDecision env cid d false r s =
      (let got := CaseStore.getCase env cid (shouldFail (simulateLatency r).2).2 s
       (.ok { success := true, data := some (decidedCase got.1 d) },
        { got.2.1 with
          cases := mapSet got.2.1.cases cid (decidedCase got.1 d),
          caseList :=
            CaseStore.setStatusFirst cid
              (mockApi.decisionStatus d.finalDecision) got.2.1.caseList },
        got.2.2)) := by
  have hspec := getCase_spec env cid (shouldFail (simulateLatency r).2).2 s hInit
  rw [mockApi.submitDecision]
  simp only [Bool.false_eq_true, if_neg, ite_false, hFail]
  rw [if_neg hEv, if_neg hOv]
  rw [updateCase_of_get env cid _ _ _ _ hspec.1 hspec.2.2.1]
  simp [decidedCase, mergedCase, decisionEvent]

theorem updateExtraction_fail (env : Env) (cid fid : String)
    (ed : FieldEditRequest) (off : Bool) (r : Rng) (s : StoreState)
    (h : off = true ∨ (shouldFail (simulateLatency r).2).1 = true) :
    (mockApi.updateExtraction env cid fid ed off r s).2.1 = s ∧
    isOkB (mockApi.updateExtraction env cid fid ed off r s).1 = false := by
  rcases h with h | h
  · subst h; simp [mockApi.updateExtraction, isOkB]
  · cases hoff : off with
    | true => simp [mockApi.updateExtraction, isOkB]
    | false => simp [mockApi.updateExtraction, isOkB, h]

theorem submitDecision_fail (env : Env) (cid : String)
    (d : DecisionSubmissionRequest) (off : Bool) (r : Rng) (s : StoreState)
    (h : off = true ∨ (shouldFail (simulateLatency r).2).1 = true) :
    (mockApi.submitDecision env cid d off r s).2.1 = s ∧
    isOkB (mockApi.submitDecision env cid d off r s).1 = false := by
  rcases h with h | h
  · subst h; simp [mockApi.submitDecision, isOkB]
  · cases hoff : off with
    | true => simp [mockApi.submitDecision, isOkB]
    | false => simp [mockApi.submitDecision, isOkB, h]

theorem updateExtraction_ok_conditions (env : Env) (cid fid : String)
    (ed : FieldEditRequest) (off : Bool) (r : Rng) (s : StoreState)
    (h : isOkB (mockApi.updateExtraction env cid fid ed off r s).1 = true) :
    off = false ∧ (shouldFail (simulateLatency r).2).1 = false ∧
    ed.newValue ≠ "" ∧ ed.reason ≠ "" := by
  cases off with
  | true => simp [mockApi.updateExtraction, isOkB] at h
  | false =>
    cases hf : (shouldFail (simulateLatency r).2).1 with
    | true => simp [mockApi.updateExtraction, isOkB, hf] at h
    | false =>
      by_cases hv : ed.newValue = "" ∨ ed.reason = ""
      · simp [mockApi.updateExtraction, isOkB, hf, hv] at h
      · push_neg at hv
        exact ⟨rfl, rfl, hv.1, hv.2⟩

theorem submitDecision_ok_conditions (env : Env) (cid : String)
    (d : DecisionSubmissionRequest) (off : Bool) (r : Rng) (s : StoreState)
    (h : isOkB (mockApi.submitDecision env cid d off r s).1 = true) :
    off = false ∧ (shouldFail (simulateLatency r).2).1 = false ∧
    d.evidenceUsed ≠ [] ∧
    ¬(d.isOverride = true ∧ mockApi.reasonOrNone d.overrideReason = none) := by
  cases off with
  | true => simp [mockApi.submitDecision, isOkB] at h
  | false =>
    cases hf : (shouldFail (simulateLatency r).2).1 with
    | true => simp [mockApi.submitDecision, isOkB, hf] at h
    | false =>
      by_cases hEv : d.evidenceUsed = []
      · simp [mockApi.submitDecision, isOkB, hf, hEv] at h
      · by_cases hOv : d.isOverride = true ∧ mockApi.reasonOrNone d.overrideReason = none
        · simp [mockApi.submitDecision, isOkB, hf, hEv, hOv] at h
        · exact ⟨rfl, rfl, hEv, hOv⟩

theorem applyOp_audit_step (env : Env) (op : MutOp) (r : Rng) (s : StoreState)
    (hInit : s.initDone = true)
    (hOk : isOkB (applyOp env op r s).1 = true) :
    (applyOp env op r s).2.1.initDone = true ∧
    ∀ cid c, mapGet s.cases cid = some c →
      ∃ c' tl, mapGet (applyOp env op r s).2.1.cases cid = some c' ∧
        c'.auditTrail = c.auditTrail ++ tl ∧
        tl.length = (if op.target = cid then 1 else 0) := by
  cases op with
  | editField cid0 fid ed off =>
    simp only [applyOp] at hOk ⊢
    obtain ⟨hoff, hf, hNv, hRs⟩ :=
      updateExtraction_ok_conditions env cid0 fid ed off r s hOk
    subst hoff
    rw [updateExtraction_ok env cid0 fid ed r s hInit hNv hRs hf]
    obtain ⟨hgInit, hgList, hgSelf, hgOther, hgVal⟩ :=
      getCase_spec env cid0 (shouldFail (simulateLatency r).2).2 s hInit
    refine ⟨hgInit, fun cid c hc => ?_⟩
    by_cases hcid : cid0 = cid
    · subst hcid
      refine ⟨editedCase (CaseStore.getCase env cid0
          (shouldFail (simulateLatency r).2).2 s).1 fid ed,
        [fieldEditEvent fid ed], mapGet_mapSet_self _ _ _, ?_,
        by simp [MutOp.target]⟩
      rw [hgVal c hc]
      simp [editedCase]
    · refine ⟨c, [], ?_, by simp, by simp [MutOp.target, hcid]⟩
      rw [mapGet_mapSet_ne _ _ _ _ (fun hh => hcid hh.symm)]
      rw [hgOther cid (fun hh => hcid hh.symm)]
      exact hc
  | submitOp cid0 d off =>
    simp only [applyOp] at hOk ⊢
    obtain ⟨hoff, hf, hEv, hOv⟩ :=
      submitDecision_ok_conditions env cid0 d off r s hOk
    subst hoff
    rw [submitDecision_ok env cid0 d r s hInit hEv hOv hf]
    obtain ⟨hgInit, hgList, hgSelf, hgOther, hgVal⟩ :=
      getCase_spec env cid0 (shouldFail (simulateLatency r).2).2 s hInit
    refine ⟨hgInit, fun cid c hc => ?_⟩
    by_cases hcid : cid0 = cid
    · subst hcid
      refine ⟨decidedCase (CaseStore.getCase env cid0
          (shouldFail (simulateLatency r).2).2 s).1 d,
        [decisionEvent d], mapGet_mapSet_self _ _ _, ?_,
        by simp [MutOp.target]⟩
      rw [hgVal c hc]
      simp [decidedCase]
    · refine ⟨c, [], ?_, by simp, by simp [MutOp.target, hcid]⟩
      rw [mapGet_mapSet_ne _ _ _ _ (fun hh => hcid hh.symm)]
      rw [hgOther cid (fun hh => hcid hh.symm)]
      exact hc

theorem applyOp_preserves (env : Env) (op : MutOp) (r : Rng) (s : StoreState)
    (hInit : s.initDone = true) :
    (applyOp env op r s).2.1.initDone = true ∧
    (applyOp env op r s).2.1.caseList.length = s.caseList.length := by
  cases op with
  | editField cid0 fid ed off =>
    simp only [applyOp]
    cases off with
    | true =>
      rw [(updateExtraction_fail env cid0 fid ed true r s (Or.inl rfl)).1]
      exact ⟨hInit, rfl⟩
    | false =>
      cases hfv : (shouldFail (simulateLatency r).2).1 with
      | true =>
        rw [(updateExtraction_fail env cid0 fid ed false r s (Or.inr hfv)).1]
        exact ⟨hInit, rfl⟩
      | false =>
        by_cases hv : ed.newValue = "" ∨ ed.reason = ""
        · have hstate : (mockApi.updateExtraction env cid0 fid ed false r s).2.1 = s := by
            simp [mockApi.updateExtraction, hfv, hv]
          rw [hstate]; exact ⟨hInit, rfl⟩
        · push_neg at hv
          rw [updateExtraction_ok env cid0 fid ed r s hInit hv.1 hv.2 hfv]
          have hspec := getCase_spec env cid0 (shouldFail (simulateLatency r).2).2 s hInit
          exact ⟨hspec.1, by rw [hspec.2.1]⟩
  | submitOp cid0 d off =>
    simp only [applyOp]
    cases off with
    | true =>
      rw [(submitDecision_fail env cid0 d true r s (Or.inl rfl)).1]
      exact ⟨hInit, rfl⟩
    | false =>
      cases hfv : (shouldFail (simulateLatency r).2).1 with
      | true =>
        rw [(submitDecision_fail env cid0 d false r s (Or.inr hfv)).1]
        exact ⟨hInit, rfl⟩
      | false =>
        by_cases hEv : d.evidenceUsed = []
        · have hstate : (mockApi.submitDecision env cid0 d false r s).2.1 = s := by
            simp [mockApi.submitDecision, hfv, hEv]
          rw [hstate]; exact ⟨hInit, rfl⟩
        · by_cases hOv : d.isOverride = true ∧ mockApi.reasonOrNone d.overrideReason = none
          · have hstate : (mockApi.submitDecision env cid0 d false r s).2.1 = s := by
              simp [mockApi.submitDecision, hfv, hEv, hOv]
            rw [hstate]; exact ⟨hInit, rfl⟩
          · rw [submitDecision_ok env cid0 d r s hInit hEv hOv hfv]
            have hspec := getCase_spec env cid0 (shouldFail (simulateLatency r).2).2 s hInit
            exact ⟨hspec.1, by rw [setStatusFirst_length, hspec.2.1]⟩

/-- Whether a get-case outcome is a success. -/
def isOkCaseB : Except ApiError Case → Bool
  | .ok _ => true
  | .error _ => false

/-- The `ef` extraction of the seeded cardiology case. -/
def exEf : Extraction :=
  { fieldId := "ef", label := "Ejection Fraction", value := "25%",
    confidence := 91, source := { docId := "DOC-1", page := 3 } }

/-- `mockApi.getCaseDetails` on the no-failure path reduces to a store read. -/
theorem getCaseDetails_ok (env : Env) (cid : String) (r : Rng) (s : StoreState)
    (hFail : (shouldFail (simulateLatency r).2).1 = false) :
    mockApi.getCaseDetails env cid false r s =
      (let got := CaseStore.getCase env cid (shouldFail (simulateLatency r).2).2 s
       (.ok got.1, got.2.1, got.2.2)) := by
  rw [mockApi.getCaseDetails]
  simp [hFail]

/-- Mapping the field-overwrite function over extractions that never carry the
target `fieldId` is the identity. -/
theorem mapExtractions_no_match (fid : String) (nv : String)
    (l : List Extraction) (h : ∀ ex ∈ l, ex.fieldId ≠ fid) :
    (l.map fun ex =>
      if ex.fieldId = fid then { ex with value := nv } else ex) = l := by
  induction l with
  | nil => simp
  | cons x xs ih =>
    have hx := h x (by simp)
    simp only [List.map_cons, if_neg hx]
    rw [ih (fun ex hex => h ex (by simp [hex]))]

set_option maxRecDepth 200000

/-! ## Claims -/

/-- C7: when the wrapped operation fails with a `Transient` (status-500)
failure on every attempt, `withRetry` with the fixed maximum of 3 attempts
waits `base * 2^attempt` before each retry (1000 ms, then 2000 ms), propagates
the final attempt's failure to the caller unchanged, and consults no attempt
beyond the first 3 (any operation agreeing on attempts 0..2 yields the same
outcome). -/
theorem C7_retry_backoff_timing {α : Type} (fn : Nat → Except ApiError α)
    (e0 e1 e2 : ApiError)
    (h0 : fn 0 = .error e0) (h1 : fn 1 = .error e1) (h2 : fn 2 = .error e2)
    (_ht0 : e0.statusCode = 500) (_ht1 : e1.statusCode = 500)
    (_ht2 : e2.statusCode = 500) :
    withRetry fn RETRY_ATTEMPTS =
      (.error e2, [RETRY_DELAY_BASE * 2 ^ 0, RETRY_DELAY_BASE * 2 ^ 1]) ∧
    ∀ fn' : Nat → Except ApiError α,
      (∀ k, k < RETRY_ATTEMPTS → fn k = fn' k) →
      withRetry fn' RETRY_ATTEMPTS = withRetry fn RETRY_ATTEMPTS := by
  have hmain : withRetry fn RETRY_ATTEMPTS =
      (.error e2, [RETRY_DELAY_BASE * 2 ^ 0, RETRY_DELAY_BASE * 2 ^ 1]) := by
    simp [withRetry, RETRY_ATTEMPTS, retryGo, h0, h1, h2, RETRY_DELAY_BASE]
  refine ⟨hmain, fun fn' hcong => ?_⟩
  have h0' : fn' 0 = .error e0 := by rw [← hcong 0 (by decide), h0]
  have h1' : fn' 1 = .error e1 := by rw [← hcong 1 (by decide), h1]
  have h2' : fn' 2 = .error e2 := by rw [← hcong 2 (by decide), h2]
  rw [hmain]
  simp [withRetry, RETRY_ATTEMPTS, retryGo, h0', h1', h2', RETRY_DELAY_BASE]

/-- The injected-failure (`Transient`, status-500) error of the edit path. -/
def transientErr : ApiError :=
  { message := "Failed to update extraction: Server error", statusCode := 500 }

/-- C7 witness: a concrete always-Transient operation, run through the
theorem. -/
theorem C7_retry_backoff_timing_witness :
    withRetry (fun _ => (.error transientErr : Except ApiError Nat))
        RETRY_ATTEMPTS =
      (.error transientErr,
       [RETRY_DELAY_BASE * 2 ^ 0, RETRY_DELAY_BASE * 2 ^ 1]) :=
  (C7_retry_backoff_timing _ transientErr transientErr transientErr
    rfl rfl rfl rfl rfl rfl).1

/-- C2 counterexample: an `Unavailable`-kind failure (the facade's offline
error, status code 0) on the first attempt is NOT propagated without further
attempts — `withRetry` retries it and returns the second attempt's success
after waiting one backoff delay, so non-`Transient` failures are retried,
contrary to the claim. -/
theorem C2_unavailable_error_retried :
    withRetry (fun k => if k = 0 then
        .error { message := "Network request failed: Offline mode enabled",
                 statusCode := 0 }
      else .ok (7 : Nat)) RETRY_ATTEMPTS = (.ok 7, [RETRY_DELAY_BASE]) :=
  rfl

/-- The offline (`Unavailable`-kind, status-0) error of the facade. -/
def offlineErr : ApiError :=
  { message := "Network request failed: Offline mode enabled", statusCode := 0 }

/-- The validation (`InvalidRequest`-kind, status-400) error of the edit
path. -/
def invalidErr : ApiError :=
  { message := "Invalid request: newValue and reason are required",
    statusCode := 400 }

/-- A Forbidden-like (status-403) error; the source never constructs one,
which is itself part of the point — no kind taxonomy exists to classify. -/
def forbiddenErr : ApiError := { message := "Forbidden", statusCode := 403 }

/-- C2 (amended): `withRetry` performs no error-kind classification at all.
With the fixed bound of 3 attempts: failures of ANY kinds (any messages, any
status codes — e.g. the offline status 0 and the validation status 400) on
the non-final attempts 0 and 1 are each retried after the backoff delay,
exactly as `Transient` failures would be (the run reaches attempt 2 and
returns its success after both waits); and on an all-failing run only the
final attempt's failure is propagated, unchanged — the earlier failures, of
whatever kinds, never surface. -/
theorem C2_amended_retry_ignores_error_kind {α : Type}
    (e0 e1 e2 d0 d1 : ApiError) (w : α) (fn g : Nat → Except ApiError α)
    (h0 : fn 0 = .error e0) (h1 : fn 1 = .error e1) (h2 : fn 2 = .error e2)
    (hg0 : g 0 = .error d0) (hg1 : g 1 = .error d1) (hg2 : g 2 = .ok w) :
    withRetry g RETRY_ATTEMPTS =
      (.ok w, [RETRY_DELAY_BASE * 2 ^ 0, RETRY_DELAY_BASE * 2 ^ 1]) ∧
    withRetry fn RETRY_ATTEMPTS =
      (.error e2, [RETRY_DELAY_BASE * 2 ^ 0, RETRY_DELAY_BASE * 2 ^ 1]) := by
  constructor
  · simp [withRetry, RETRY_ATTEMPTS, retryGo, hg0, hg1, hg2, RETRY_DELAY_BASE]
  · simp [withRetry, RETRY_ATTEMPTS, retryGo, h0, h1, h2, RETRY_DELAY_BASE]

/-- C2 amended witness: offline (status 0), invalid-request (status 400) and
Forbidden-like (status 403) failures — all non-`Transient` kinds — run
through the theorem: the non-final offline and invalid-request failures are
each retried, and on the all-failing run only the third attempt's 403 error
is propagated. -/
theorem C2_amended_retry_witness :
    withRetry (fun k => if k = 0 then .error offlineErr
      else if k = 1 then .error invalidErr
      else .ok (7 : Nat)) RETRY_ATTEMPTS =
      (.ok 7, [RETRY_DELAY_BASE * 2 ^ 0, RETRY_DELAY_BASE * 2 ^ 1]) ∧
    withRetry (fun k => if k = 0 then .error offlineErr
      else if k = 1 then .error invalidErr
      else (.error forbiddenErr : Except ApiError Nat)) RETRY_ATTEMPTS =
      (.error forbiddenErr,
       [RETRY_DELAY_BASE * 2 ^ 0, RETRY_DELAY_BASE * 2 ^ 1]) :=
  C2_amended_retry_ignores_error_kind offlineErr invalidErr forbiddenErr
    offlineErr invalidErr 7 _ _ rfl rfl rfl rfl rfl rfl

/-- C10: `hasPermission` grants exactly the spec'd capability table (viewer:
view only; reviewer: view/edit/submit; admin: view/edit/submit/audit), and
capabilities are monotone from viewer to reviewer to admin. -/
theorem C10_hasPermission_table_monotone (a : PermAction) :
    (hasPermission .viewer .view = true ∧ hasPermission .viewer .edit = false ∧
     hasPermission .viewer .submit = false ∧
     hasPermission .viewer .audit = false) ∧
    (hasPermission .reviewer .view = true ∧
     hasPermission .reviewer .edit = true ∧
     hasPermission .reviewer .submit = true ∧
     hasPermission .reviewer .audit = false) ∧
    (hasPermission .admin .view = true ∧ hasPermission .admin .edit = true ∧
     hasPermission .admin .submit = true ∧ hasPermission .admin .audit = true) ∧
    (hasPermission .viewer a = true → hasPermission .reviewer a = true) ∧
    (hasPermission .reviewer a = true → hasPermission .admin a = true) := by
  cases a <;> exact (by decide)

/-- C10 witness: monotonicity applied at the `view` action. -/
theorem C10_hasPermission_witness :
    hasPermission .reviewer .view = true ∧ hasPermission .admin .view = true := by
  have h := C10_hasPermission_table_monotone PermAction.view
  exact ⟨h.2.2.2.1 (by decide), h.2.2.2.2 (by decide)⟩

/-- C3: a mutation call on which offline mode is asserted or the fault
injector selects failure returns an error and leaves the store state (hence
every case's audit-trail length, extraction values, and status) completely
unchanged. -/
theorem C3_failed_call_no_side_effect (env : Env) (cid fid : String)
    (ed : FieldEditRequest) (d : DecisionSubmissionRequest) (off : Bool)
    (r : Rng) (s : StoreState)
    (h : off = true ∨ (shouldFail (simulateLatency r).2).1 = true) :
    (mockApi.updateExtraction env cid fid ed off r s).2.1 = s ∧
    isOkB (mockApi.updateExtraction env cid fid ed off r s).1 = false ∧
    (mockApi.submitDecision env cid d off r s).2.1 = s ∧
    isOkB (mockApi.submitDecision env cid d off r s).1 = false := by
  obtain ⟨h1, h2⟩ := updateExtraction_fail env cid fid ed off r s h
  obtain ⟨h3, h4⟩ := submitDecision_fail env cid d off r s h
  exact ⟨h1, h2, h3, h4⟩

/-- C3 witness: a concrete offline-mode edit and decision on the freshly
initialized store. -/
theorem C3_failed_call_witness :
    (mockApi.updateExtraction env0 "PA-10293" "ef" editOk true rngHi
        initState).2.1 = initState ∧
    isOkB (mockApi.updateExtraction env0 "PA-10293" "ef" editOk true rngHi
        initState).1 = false ∧
    (mockApi.submitDecision env0 "PA-10293" decOk true rngHi
        initState).2.1 = initState ∧
    isOkB (mockApi.submitDecision env0 "PA-10293" decOk true rngHi
        initState).1 = false :=
  C3_failed_call_no_side_effect env0 "PA-10293" "ef" editOk decOk true rngHi
    initState (Or.inl rfl)

/-- C8: initialization is idempotent — on any already-initialized state it is
the identity (so a second call changes neither the list projection nor any
mutated case); a first call on a fresh state sets the flag and produces the
750-item list projection; and every facade mutation preserves the initialized
flag and the list projection's size, so every state reachable after
initialization stays initialized. -/
theorem C8_init_idempotent (env : Env) (r r2 r3 : Rng) (s t : StoreState)
    (op : MutOp) (hs : s.initDone = true) (ht : t.initDone = false) :
    CaseStore.init env r s = (s, r) ∧
    ((CaseStore.init env r2 t).1.initDone = true ∧
     (CaseStore.init env r2 t).1.caseList.length = 750) ∧
    ((applyOp env op r3 s).2.1.initDone = true ∧
     (applyOp env op r3 s).2.1.caseList.length = s.caseList.length) :=
  ⟨init_of_initDone env r s hs,
   ⟨init_initDone env r2 t, init_fresh_length env r2 t ht⟩,
   applyOp_preserves env op r3 s hs⟩

/-- C8 witness: re-initializing the initialized store is the identity; the
first initialization of the empty store yields 750 list items; a concrete
edit preserves the flag and the list size. -/
theorem C8_init_idempotent_witness :
    CaseStore.init env0 rngLo initState = (initState, rngLo) ∧
    ((CaseStore.init env0 rngHi emptyStore).1.initDone = true ∧
     (CaseStore.init env0 rngHi emptyStore).1.caseList.length = 750) ∧
    ((applyOp env0 (.editField "PA-10293" "ef" editOk false) rngHi
        initState).2.1.initDone = true ∧
     (applyOp env0 (.editField "PA-10293" "ef" editOk false) rngHi
        initState).2.1.caseList.length = initState.caseList.length) :=
  C8_init_idempotent env0 rngLo rngHi rngHi initState emptyStore
    (.editField "PA-10293" "ef" editOk false) (by decide) rfl

/-- C9: fetching a never-before-seen caseId generates the case from the id
and the current random source and caches it; a subsequent fetch of the same
id — under ANY random source, so regeneration randomness is irrelevant —
returns exactly the cached first result and leaves the store unchanged. -/
theorem C9_generation_cached_per_id (env : Env) (cid : String) (r r2 : Rng)
    (s : StoreState) (hInit : s.initDone = true)
    (hAbsent : mapGet s.cases cid = none) :
    (CaseStore.getCase env cid r s).1 = (generateCaseDetails cid env r).1 ∧
    CaseStore.getCase env cid r2 (CaseStore.getCase env cid r s).2.1 =
      ((CaseStore.getCase env cid r s).1,
       (CaseStore.getCase env cid r s).2.1, r2) := by
  rw [getCase_absent env cid r s hInit hAbsent]
  exact ⟨rfl, getCase_cached env cid r2 _ _ hInit (mapGet_mapSet_self _ _ _)⟩

/-- C9 witness: the concrete id `PA-10500`, absent from the freshly
initialized store, fetched twice with different random sources. -/
theorem C9_generation_cached_witness :
    (CaseStore.getCase env0 "PA-10500" rng1 initState).1 =
      (generateCaseDetails "PA-10500" env0 rng1).1 ∧
    CaseStore.getCase env0 "PA-10500" rngLo
        (CaseStore.getCase env0 "PA-10500" rng1 initState).2.1 =
      ((CaseStore.getCase env0 "PA-10500" rng1 initState).1,
       (CaseStore.getCase env0 "PA-10500" rng1 initState).2.1, rngLo) :=
  C9_generation_cached_per_id env0 "PA-10500" rng1 rngLo initState
    (by decide) (by decide)

/-- C1 counterexample: on the freshly initialized store, the seeded case
`PA-10293` stores `"25%"` for field `ef`; an edit whose `oldValue` is the
differing `"30%"` does NOT fail with `Conflict` (or at all): it succeeds,
overwrites the stored value with `newValue`, and appends an audit event —
falsifying every part of the claim. -/
theorem C1_stale_edit_not_conflict :
    (mapGet initState.cases "PA-10293").map
        (fun c => c.extractions.map fun e => (e.fieldId, e.value)) =
      some [("dx", "Non-ischemic cardiomyopathy"), ("ef", "25%")] ∧
    editStale.oldValue = "30%" ∧
    isOkB (mockApi.updateExtraction env0 "PA-10293" "ef" editStale false rngHi
        initState).1 = true ∧
    (mapGet (mockApi.updateExtraction env0 "PA-10293" "ef" editStale false
          rngHi initState).2.1.cases "PA-10293").map
        (fun c => (c.auditTrail.length, c.extractions.map fun e => e.value)) =
      some (1, ["Non-ischemic cardiomyopathy", "20%"]) := by
  decide

/-- C1 (amended): `updateExtraction` performs no optimistic-concurrency
check — when the targeted case is materialized and the field is present with
a stored value different from the caller's `oldValue`, the edit nevertheless
succeeds: the field is overwritten with `newValue` and exactly one FIELD_EDIT
audit event (recording the caller-supplied, stale `oldValue`) is appended. -/
theorem C1_amended_stale_edit_succeeds (env : Env) (cid fid : String)
    (ed : FieldEditRequest) (r : Rng) (s : StoreState) (c : Case)
    (ex : Extraction)
    (hInit : s.initDone = true) (hGet : mapGet s.cases cid = some c)
    (_hEx : c.extractions.find? (fun e => e.fieldId = fid) = some ex)
    (_hStale : ed.oldValue ≠ ex.value)
    (hNv : ed.newValue ≠ "") (hRs : ed.reason ≠ "")
    (hFail : (shouldFail (simulateLatency r).2).1 = false) :
    mockApi.updateExtraction env cid fid ed false r s =
      (.ok { success := true, data := some (editedCase c fid ed) },
       { s with cases := mapSet s.cases cid (editedCase c fid ed) },
       (shouldFail (simulateLatency r).2).2) ∧
    (editedCase c fid ed).auditTrail = c.auditTrail ++ [fieldEditEvent fid ed] := by
  have h := updateExtraction_ok env cid fid ed r s hInit hNv hRs hFail
  rw [getCase_cached env cid ((shouldFail (simulateLatency r).2).2) s c hInit
    hGet] at h
  exact ⟨h, rfl⟩

/-- C1 amended witness: the concrete stale edit of `ef` on the seeded case. -/
theorem C1_amended_stale_edit_witness :
    mockApi.updateExtraction env0 "PA-10293" "ef" editStale false rngHi
        initState =
      (.ok { success := true, data := some (editedCase card0 "ef" editStale) },
       { initState with
         cases := mapSet initState.cases "PA-10293"
           (editedCase card0 "ef" editStale) },
       (shouldFail (simulateLatency rngHi).2).2) ∧
    (editedCase card0 "ef" editStale).auditTrail =
      card0.auditTrail ++ [fieldEditEvent "ef" editStale] :=
  C1_amended_stale_edit_succeeds env0 "PA-10293" "ef" editStale rngHi initState
    card0 exEf (by decide) (by decide) (by decide) (by decide) (by decide)
    (by decide) (by decide)

/-- C4 counterexample: the `viewer` role lacks the edit and submit
capabilities, yet a field edit and a decision submission whose `user` is
`"viewer"` both succeed on the service facade and mutate the store (an audit
event is appended; the status changes) — the facade enforces no permission
check at all. -/
theorem C4_viewer_mutations_accepted :
    hasPermission .viewer .edit = false ∧
    hasPermission .viewer .submit = false ∧
    editViewer.user = "viewer" ∧ decViewer.user = "viewer" ∧
    isOkB (mockApi.updateExtraction env0 "PA-10293" "ef" editViewer false
        rngHi initState).1 = true ∧
    (mapGet (mockApi.updateExtraction env0 "PA-10293" "ef" editViewer false
          rngHi initState).2.1.cases "PA-10293").map
        (fun c => c.auditTrail.length) = some 1 ∧
    isOkB (mockApi.submitDecision env0 "PA-10293" decViewer false rngHi
        initState).1 = true ∧
    (mapGet (mockApi.submitDecision env0 "PA-10293" decViewer false rngHi
          initState).2.1.cases "PA-10293").map (fun c => c.status) =
      some CaseStatus.APPROVED := by
  decide

/-- C4 (amended): the service facade performs no permission enforcement:
whenever the payload passes validation and no failure is injected, the edit
and submit operations succeed for an arbitrary caller-supplied `user` string
(in particular `"viewer"`), even though `hasPermission` denies the viewer
role the edit and submit capabilities — role gating exists only in the UI. -/
theorem C4_amended_no_service_permission_check (env : Env) (cid fid : String)
    (ed : FieldEditRequest) (d : DecisionSubmissionRequest) (r r2 : Rng)
    (s : StoreState) (hInit : s.initDone = true)
    (hNv : ed.newValue ≠ "") (hRs : ed.reason ≠ "")
    (hFail : (shouldFail (simulateLatency r).2).1 = false)
    (hEv : d.evidenceUsed ≠ [])
    (hOv : ¬(d.isOverride = true ∧ mockApi.reasonOrNone d.overrideReason = none))
    (hFail2 : (shouldFail (simulateLatency r2).2).1 = false) :
    hasPermission .viewer .edit = false ∧
    hasPermission .viewer .submit = false ∧
    isOkB (mockApi.updateExtraction env cid fid ed false r s).1 = true ∧
    isOkB (mockApi.submitDecision env cid d false r2 s).1 = true := by
  refine ⟨by decide, by decide, ?_, ?_⟩
  · rw [updateExtraction_ok env cid fid ed r s hInit hNv hRs hFail]
    rfl
  · rw [submitDecision_ok env cid d r2 s hInit hEv hOv hFail2]
    rfl

/-- C4 amended witness: the concrete viewer-issued edit and decision. -/
theorem C4_amended_witness :
    hasPermission .viewer .edit = false ∧
    hasPermission .viewer .submit = false ∧
    isOkB (mockApi.updateExtraction env0 "PA-10293" "ef" editViewer false
        rngHi initState).1 = true ∧
    isOkB (mockApi.submitDecision env0 "PA-10293" decViewer false rngHi
        initState).1 = true :=
  C4_amended_no_service_permission_check env0 "PA-10293" "ef" editViewer
    decViewer rngHi rngHi initState (by decide) (by decide) (by decide)
    (by decide) (by decide) (by decide) (by decide)

/-- C5 counterexample: `PA-10500` is not materialized in the freshly
initialized store, yet get-case succeeds and silently creates the case, and
submit-decision on it succeeds too; editing the materialized `PA-10293` with
the absent fieldId `"bogus"` also succeeds — leaving every extraction value
unchanged but still appending an audit event. No operation fails with
`NotFound`. -/
theorem C5_absent_case_field_no_notfound :
    mapGet initState.cases "PA-10500" = none ∧
    isOkCaseB (mockApi.getCaseDetails env0 "PA-10500" false rngHi
        initState).1 = true ∧
    (mapGet (mockApi.getCaseDetails env0 "PA-10500" false rngHi
        initState).2.1.cases "PA-10500").isSome = true ∧
    ((card0.extractions.map fun e => e.fieldId).contains "bogus") = false ∧
    isOkB (mockApi.updateExtraction env0 "PA-10293" "bogus" editOk false rngHi
        initState).1 = true ∧
    (mapGet (mockApi.updateExtraction env0 "PA-10293" "bogus" editOk false
          rngHi initState).2.1.cases "PA-10293").map
        (fun c => (c.extractions.map fun e => e.value, c.auditTrail.length)) =
      some (["Non-ischemic cardiomyopathy", "25%"], 1) ∧
    isOkB (mockApi.submitDecision env0 "PA-10500" decOk false rngHi
        initState).1 = true := by
  decide

/-- C5 (amended): no `NotFound` failure exists. Fetching an absent caseId
generates a case on demand, stores it, and succeeds; editing an absent
fieldId of a materialized case succeeds, leaves all extraction values
unchanged, yet still appends one FIELD_EDIT audit event; submitting a
decision for an absent caseId materializes the case and succeeds. -/
theorem C5_amended_absent_succeeds (env : Env) (cid cid2 fid : String)
    (ed : FieldEditRequest) (d : DecisionSubmissionRequest) (r r2 r3 : Rng)
    (s : StoreState) (c : Case)
    (hInit : s.initDone = true)
    (hAbsent : mapGet s.cases cid = none)
    (hFail : (shouldFail (simulateLatency r).2).1 = false)
    (hGet2 : mapGet s.cases cid2 = some c)
    (hNoField : ∀ ex ∈ c.extractions, ex.fieldId ≠ fid)
    (hNv : ed.newValue ≠ "") (hRs : ed.reason ≠ "")
    (hFail2 : (shouldFail (simulateLatency r2).2).1 = false)
    (hEv : d.evidenceUsed ≠ [])
    (hOv : ¬(d.isOverride = true ∧ mockApi.reasonOrNone d.overrideReason = none))
    (hFail3 : (shouldFail (simulateLatency r3).2).1 = false) :
    mockApi.getCaseDetails env cid false r s =
      (.ok (generateCaseDetails cid env (shouldFail (simulateLatency r).2).2).1,
       { s with
         cases :=
           mapSet s.cases cid
             (generateCaseDetails cid env
               (shouldFail (simulateLatency r).2).2).1 },
       (generateCaseDetails cid env (shouldFail (simulateLatency r).2).2).2) ∧
    mockApi.updateExtraction env cid2 fid ed false r2 s =
      (.ok { success := true, data := some (editedCase c fid ed) },
       { s with cases := mapSet s.cases cid2 (editedCase c fid ed) },
       (shouldFail (simulateLatency r2).2).2) ∧
    (editedCase c fid ed).extractions = c.extractions ∧
    (editedCase c fid ed).auditTrail = c.auditTrail ++ [fieldEditEvent fid ed] ∧
    isOkB (mockApi.submitDecision env cid d false r3 s).1 = true := by
  refine ⟨?_, ?_, ?_, rfl, ?_⟩
  · rw [getCaseDetails_ok env cid r s hFail]
    rw [getCase_absent env cid ((shouldFail (simulateLatency r).2).2) s hInit
      hAbsent]
  · have h := updateExtraction_ok env cid2 fid ed r2 s hInit hNv hRs hFail2
    rw [getCase_cached env cid2 ((shouldFail (simulateLatency r2).2).2) s c
      hInit hGet2] at h
    exact h
  · simp only [editedCase]
    exact mapExtractions_no_match fid ed.newValue c.extractions hNoField
  · rw [submitDecision_ok env cid d r3 s hInit hEv hOv hFail3]
    rfl

/-- C5 amended witness: the concrete absent id `PA-10500` and the absent
field `"bogus"` of the seeded case. -/
theorem C5_amended_witness :
    mockApi.getCaseDetails env0 "PA-10500" false rngHi initState =
      (.ok (generateCaseDetails "PA-10500" env0
          (shouldFail (simulateLatency rngHi).2).2).1,
       { initState with
         cases :=
           mapSet initState.cases "PA-10500"
             (generateCaseDetails "PA-10500" env0
               (shouldFail (simulateLatency rngHi).2).2).1 },
       (generateCaseDetails "PA-10500" env0
         (shouldFail (simulateLatency rngHi).2).2).2) ∧
    mockApi.updateExtraction env0 "PA-10293" "bogus" editOk false rngHi
        initState =
      (.ok { success := true, data := some (editedCase card0 "bogus" editOk) },
       { initState with
         cases := mapSet initState.cases "PA-10293"
           (editedCase card0 "bogus" editOk) },
       (shouldFail (simulateLatency rngHi).2).2) ∧
    (editedCase card0 "bogus" editOk).extractions = card0.extractions ∧
    (editedCase card0 "bogus" editOk).auditTrail =
      card0.auditTrail ++ [fieldEditEvent "bogus" editOk] ∧
    isOkB (mockApi.submitDecision env0 "PA-10500" decOk false rngHi
        initState).1 = true :=
  C5_amended_absent_succeeds env0 "PA-10500" "PA-10293" "bogus" editOk decOk
    rngHi rngHi rngHi initState card0 (by decide) (by decide) (by decide)
    (by decide) (by decide) (by decide) (by decide) (by decide) (by decide)
    (by decide) (by decide)

/-- C6: over any sequence of facade mutations that all succeed, each
materialized case's audit trail grows by exactly one event per mutation
targeting it: the final trail is the initial trail with a list of new events
appended (so previously recorded events are never modified or removed and
insertion order is kept), and the number of appended events equals the number
of mutations in the sequence that target that case. -/
theorem C6_audit_append_only (env : Env) (ops : List MutOp) :
    ∀ (r : Rng) (s : StoreState), s.initDone = true →
    (runOps env ops r s).2.2 = true →
    ∀ cid c, mapGet s.cases cid = some c →
    ∃ c' tl, mapGet (runOps env ops r s).1.cases cid = some c' ∧
      c'.auditTrail = c.auditTrail ++ tl ∧
      tl.length = (ops.filter fun op => op.target = cid).length := by
  induction ops with
  | nil =>
    intro r s _hInit _hOk cid c hc
    exact ⟨c, [], by simpa [runOps] using hc, by simp, by simp⟩
  | cons op ops ih =>
    intro r s hInit hOk cid c hc
    simp only [runOps] at hOk ⊢
    rw [Bool.and_eq_true] at hOk
    obtain ⟨h1, h2⟩ := hOk
    obtain ⟨hInit1, hstep⟩ := applyOp_audit_step env op r s hInit h1
    obtain ⟨c1, tl1, hga, hau1, hlen1⟩ := hstep cid c hc
    obtain ⟨c', tl2, hg2, hau2, hlen2⟩ :=
      ih (applyOp env op r s).2.2 (applyOp env op r s).2.1 hInit1 h2 cid c1 hga
    refine ⟨c', tl1 ++ tl2, hg2, ?_, ?_⟩
    · rw [hau2, hau1, List.append_assoc]
    · rw [List.length_append, hlen1, hlen2, List.filter_cons]
      by_cases hcid : op.target = cid <;> simp [hcid]
      omega

/-- C6 witness: a successful edit followed by a successful decision on the
seeded case, run on the freshly initialized store. -/
theorem C6_audit_append_only_witness :
    ∃ c' tl,
      mapGet (runOps env0
          [.editField "PA-10293" "ef" editOk false,
           .submitOp "PA-10293" decOk false] rng1 initState).1.cases
        "PA-10293" = some c' ∧
      c'.auditTrail = card0.auditTrail ++ tl ∧
      tl.length = ([MutOp.editField "PA-10293" "ef" editOk false,
        MutOp.submitOp "PA-10293" decOk false].filter
          fun op => op.target = "PA-10293").length :=
  C6_audit_append_only env0
    [.editField "PA-10293" "ef" editOk false,
     .submitOp "PA-10293" decOk false] rng1 initState
    (by decide) (by decide) "PA-10293" card0 (by decide)

end ERW

